import Mathlib

/-!
Verification development for the `smzdz` recommendation backend.

The definitions below are a shallow embedding of the Python sources under
`backend/app`:

* `backend/app/core/config.py` → `Settings`, `defaultSettings`
* `backend/app/models/schemas.py` → `RecommendationType`, `UrgencyLevel`,
  `RecommendationItem`, `CourseSelection`, `InnoProject`, ...
* `backend/app/services/recommendation_engine.py` → `RecommendationEngine.*`
  (scoring, generators, diversity selection, orchestration)
* `backend/app/services/cache_service.py` → `CacheService` / `InMemoryCache`
* `backend/app/services/performance.py` → `PrecomputeService._cleanup_expired_cache`

Modelling conventions:

* Python `datetime` values are modelled as integer seconds since the epoch
  (UTC).  The `tzinfo` normalization steps in the source (naive timestamps
  are reinterpreted as UTC) are the identity in this model, since the model
  has a single absolute time line.  `timedelta.days` is floor division of
  the difference in seconds by 86400, i.e. `Int.fdiv _ 86400`.
* Python `float` scores are modelled as rationals (`ℚ`), so every equation
  is exact; machine rounding is not relevant to any claim proved here.
* JSON serialization (`json.dumps` / `json.loads`) in the cache layer is
  abstracted as an `enc` / `dec` pair of string codecs, passed explicitly.
* `async` plumbing is dropped: each coroutine becomes a pure function of the
  data it reads, and `asyncio.gather(..., return_exceptions=True)` becomes a
  record of per-fetch `Except` results.
* Exceptions are modelled with `Except String`; a hard failure inside the
  orchestration body (which in Python could be raised anywhere inside the
  `try:` block of `generate_recommendations`) is modelled by an oracle
  argument `hard : Option String` that makes the body throw.
-/

/-- Embedding of `Settings` from `backend/app/core/config.py`, restricted to
the fields the core engine reads.  The Python field `cache_prefix` is renamed
`cache_namespace` here (same default value `"what_to_do"`). -/
structure Settings where
  algorithm_weights_urgency : ℚ := 35 / 100
  algorithm_weights_importance : ℚ := 30 / 100
  algorithm_weights_personal_fit : ℚ := 25 / 100
  algorithm_weights_growth_value : ℚ := 10 / 100
  urgency_critical : Int := 24
  urgency_high : Int := 72
  urgency_medium : Int := 168
  urgency_low : Int := 720
  cache_ttl : Int := 7200
  cache_namespace : String := "what_to_do"
deriving DecidableEq

/-- The default configuration instance (`config.py` field defaults). -/
def defaultSettings : Settings := {}

/-- Embedding of `RecommendationType` (`schemas.py`): a string enum. -/
inductive RecommendationType where
  | COURSE_URGENT
  | COURSE_POPULAR
  | TASK_CLAIM
  | GOAL_TALK
  | REPORT_TIME
  | PROFILE_COMPLETE
  | EXAM_PUBLISH
  | COURSE_PUBLISH
deriving DecidableEq

/-- The `.value` of each `RecommendationType` member (its string tag). -/
def RecommendationType.value : RecommendationType → String
  | .COURSE_URGENT => "COURSE_URGENT"
  | .COURSE_POPULAR => "COURSE_POPULAR"
  | .TASK_CLAIM => "TASK_CLAIM"
  | .GOAL_TALK => "GOAL_TALK"
  | .REPORT_TIME => "REPORT_TIME"
  | .PROFILE_COMPLETE => "PROFILE_COMPLETE"
  | .EXAM_PUBLISH => "EXAM_PUBLISH"
  | .COURSE_PUBLISH => "COURSE_PUBLISH"

/-- Embedding of `rec.type.value.split(chr(95))[0]` from
`_select_top3_with_diversity`: the part of the type tag before the first
underscore (the whole tag if there is none). -/
def RecommendationType.category (t : RecommendationType) : String :=
  String.mk (t.value.toList.takeWhile (fun c => c ≠ '_'))

/-- Embedding of `UrgencyLevel` (`schemas.py`). -/
inductive UrgencyLevel where
  | critical
  | high
  | medium
  | low
deriving DecidableEq

/-- Embedding of `RecommendationItem` (`schemas.py`).  `created_at` (Python:
`default_factory=datetime.now`) is filled with the generation time `now`. -/
structure RecommendationItem where
  id : String
  type : RecommendationType
  title : String
  description : String
  action_text : String
  action_url : String
  score : ℚ
  urgency : ℚ
  importance : ℚ
  personal_fit : ℚ
  growth_value : ℚ
  estimated_time : String
  deadline : Option Int
  urgency_level : Option UrgencyLevel
  reasons : List String
  source_id : Option String
  source_type : Option String
  created_at : Int
deriving DecidableEq

/-- Embedding of `CourseSelection` (`schemas.py`), deadline in seconds. -/
structure CourseSelection where
  sele_id : Int
  user_id : Int
  user_name : String
  course_title : String
  course_id : Int
  chapter_title : String
  chapter_id : Int
  current_serial : Int
  deadline : Int
  url : String
  shushi_id : Option Int
  shushi_name : Option String
deriving DecidableEq

/-- Embedding of the course-catalog dicts consumed by `_recommend_courses`.
Fields read with `dict.get(..., default)` are `Option`s; fields read by
direct indexing are plain. -/
structure Course where
  id : Int
  title : String
  desc : Option String
  director_name : Option String
  finish_selections_num : Option Int
deriving DecidableEq

/-- Embedding of `InnoProject` (`schemas.py`).  `desc` is typed
`Optional[str]` in the schema but the generator indexes it unconditionally,
so it is modelled as the string the generator reads. -/
structure InnoProject where
  id : Int
  task_serial : String
  title : String
  publisher : String
  taker : Option String
  taker_id : Option Int
  status : Option String
  deadline : Int
  planed_hour : ℚ
  bonus : Option ℚ
  task_text : Option String
  desc : String
  create_time : Int
deriving DecidableEq

/-- Embedding of the goal dict consumed by `_recommend_system_actions`;
`start_time` (an ISO string in Python, normalized to UTC) is seconds. -/
structure Goal where
  id : Int
  user_id : Int
  content : String
  start_time : Int
deriving DecidableEq

/-- Embedding of a time-report dict; `report_time` in seconds,
`time_reported` read with `.get(..., 0)`. -/
structure Report where
  id : Int
  user_id : Int
  report_time : Int
  time_reported : Option ℚ
deriving DecidableEq

/-- Python `(deadline - now).days`: floor division of the difference in
seconds by 86400 (for `timedelta`, `.days` rounds toward minus infinity). -/
def daysTo (now deadline : Int) : Int :=
  (deadline - now).fdiv 86400

/-- Embedding of `RecommendationEngine._calculate_urgency_score`
(`recommendation_engine.py` lines 361-384). -/
def calculateUrgencyScore (days_left : Int) (task_type : String) : ℚ :=
  if task_type = "COURSE" then
    if days_left ≤ 1 then 95
    else if days_left ≤ 3 then 85
    else if days_left ≤ 7 then 70
    else if days_left ≤ 14 then 50
    else 30
  else if task_type = "PROJECT" then
    if days_left ≤ 3 then 90
    else if days_left ≤ 7 then 75
    else if days_left ≤ 14 then 60
    else 40
  else 25

/-- Embedding of `RecommendationEngine._calculate_project_fit_score`. -/
def calculateProjectFitScore (project : InnoProject) : ℚ :=
  let base_score : ℚ := 50
  let bonus := project.bonus.getD 0
  let base_score := if bonus > 200 then base_score + 20
    else if bonus > 100 then base_score + 10
    else base_score
  let base_score := if project.planed_hour ≤ 10 then base_score + 15 else base_score
  min base_score 95

/-- Embedding of `RecommendationEngine._calculate_total_score`: weighted sum
of the four sub-scores, clamped above at 100. -/
def calculateTotalScore (s : Settings) (urgency importance fit growth : ℚ) : ℚ :=
  min (urgency * s.algorithm_weights_urgency +
       importance * s.algorithm_weights_importance +
       fit * s.algorithm_weights_personal_fit +
       growth * s.algorithm_weights_growth_value) 100

/-- Embedding of `RecommendationEngine._get_urgency_level`: bucket
`hours_left` against the configured thresholds. -/
def getUrgencyLevel (s : Settings) (hours_left : Int) : UrgencyLevel :=
  if hours_left ≤ s.urgency_critical then .critical
  else if hours_left ≤ s.urgency_high then .high
  else if hours_left ≤ s.urgency_medium then .medium
  else .low

example : calculateTotalScore defaultSettings 85 85 90 70 = 339 / 4 := by
  norm_num [calculateTotalScore, defaultSettings]

/-- The user-data snapshot assembled by `_fetch_user_data`. -/
structure UserData where
  selections : List CourseSelection
  all_courses : List Course
  projects : List InnoProject
  goal : Option Goal
  reports : List Report
  user_id : Int
  token : String
deriving DecidableEq

/-- Python `s[:100] + "..." if len(s) > 100 else s` (description clipping
used by the course-popular and task-claim generators). -/
def truncateDesc (s : String) : String :=
  if 100 < s.length then s.take 100 ++ "..." else s

/-- Python truthiness of an optional string (`if selection.shushi_name`):
true iff present and non-empty. -/
def optStrTruthy (o : Option String) : Bool :=
  match o with
  | some s => s ≠ ""
  | none => false

/-- The course-urgent `RecommendationItem` built in `_recommend_courses`
(lines 109-144) for one selection within the 3-day horizon. -/
def mkCourseUrgentItem (s : Settings) (now : Int) (sel : CourseSelection) :
    RecommendationItem :=
  let days_to_deadline := daysTo now sel.deadline
  let urgency_score := calculateUrgencyScore days_to_deadline "COURSE"
  let importance_score : ℚ := 85
  let fit_score : ℚ := 90
  let growth_score : ℚ := 70
  let total_score := calculateTotalScore s urgency_score importance_score fit_score growth_score
  { id := "course_urgent_" ++ toString sel.sele_id
    type := .COURSE_URGENT
    title := "完成《" ++ sel.course_title ++ "》" ++ sel.chapter_title
    description := "第" ++ toString sel.current_serial ++ "课 - " ++ sel.chapter_title
    action_text := "立即学习"
    action_url := sel.url
    score := total_score
    urgency := urgency_score
    importance := importance_score
    personal_fit := fit_score
    growth_value := growth_score
    estimated_time := "30-45分钟"
    deadline := some sel.deadline
    urgency_level := some (getUrgencyLevel s (days_to_deadline * 24))
    reasons := [
      "距离DDL还有" ++ toString days_to_deadline ++ "天",
      "已选课程需要完成",
      if optStrTruthy sel.shushi_name then "塾师: " ++ sel.shushi_name.getD "" else ""]
    source_id := some (toString sel.course_id)
    source_type := some "course_selection"
    created_at := now }

/-- The course-popular `RecommendationItem` built in `_recommend_courses`
(lines 163-185) for one eligible catalog course. -/
def mkCoursePopularItem (s : Settings) (now : Int) (c : Course) :
    RecommendationItem :=
  let finish := c.finish_selections_num.getD 0
  let urgency_score : ℚ := 30
  let importance_score : ℚ := 60 + min ((finish : ℚ) * 2) 30
  let fit_score : ℚ := 50
  let growth_score : ℚ := 80
  let total_score := calculateTotalScore s urgency_score importance_score fit_score growth_score
  { id := "course_popular_" ++ toString c.id
    type := .COURSE_POPULAR
    title := "学习热门课程《" ++ c.title ++ "》"
    description := truncateDesc (c.desc.getD "")
    action_text := "立即选课"
    action_url := "/course/" ++ toString c.id
    score := total_score
    urgency := urgency_score
    importance := importance_score
    personal_fit := fit_score
    growth_value := growth_score
    estimated_time := "1-2周"
    deadline := none
    urgency_level := some .low
    reasons := [
      "已有" ++ toString finish ++ "人完成",
      "热门推荐课程",
      "导师: " ++ c.director_name.getD "未知"]
    source_id := some (toString c.id)
    source_type := some "course_popular"
    created_at := now }

/-- Total score of the course-popular candidate, as computed before the
`total_score >= 60` gate in `_recommend_courses`. -/
def coursePopularTotalScore (s : Settings) (c : Course) : ℚ :=
  calculateTotalScore s 30 (60 + min ((c.finish_selections_num.getD 0 : ℚ) * 2) 30) 50 80

/-- Embedding of `RecommendationEngine._recommend_courses`: course-urgent
candidates for every selection with `days_to_deadline <= 3` (no score gate),
then course-popular candidates for unselected catalog courses with at least
5 completions, gated by `total_score >= 60`. -/
def recommendCourses (s : Settings) (now : Int) (ud : UserData) :
    List RecommendationItem :=
  let urgent := ud.selections.filterMap (fun sel =>
    if daysTo now sel.deadline ≤ 3 then some (mkCourseUrgentItem s now sel) else none)
  let selected_course_ids := ud.selections.map (fun sel => sel.course_id)
  let popular := ud.all_courses.filterMap (fun c =>
    if c.id ∉ selected_course_ids ∧ 5 ≤ c.finish_selections_num.getD 0 then
      if 60 ≤ coursePopularTotalScore s c then some (mkCoursePopularItem s now c) else none
    else none)
  urgent ++ popular

/-- The task-claim `RecommendationItem` built in `_recommend_projects`
(lines 217-240) for one unclaimed project passing the score gate. -/
def mkTaskClaimItem (s : Settings) (now : Int) (p : InnoProject) :
    RecommendationItem :=
  let days_to_deadline := daysTo now p.deadline
  let urgency_score := calculateUrgencyScore days_to_deadline "PROJECT"
  let importance_score := min (60 + (p.bonus.getD 0) / 10) 90
  let fit_score := calculateProjectFitScore p
  let growth_score := min (60 + p.planed_hour * 2) 90
  let total_score := calculateTotalScore s urgency_score importance_score fit_score growth_score
  { id := "task_claim_" ++ toString p.id
    type := .TASK_CLAIM
    title := "认领任务「" ++ p.title ++ "」"
    description := truncateDesc p.desc
    action_text := "立即认领"
    action_url := "/inno/task/" ++ toString p.id
    score := total_score
    urgency := urgency_score
    importance := importance_score
    personal_fit := fit_score
    growth_value := growth_score
    estimated_time := toString p.planed_hour ++ "小时"
    deadline := some p.deadline
    urgency_level := some (getUrgencyLevel s (days_to_deadline * 24))
    reasons := [
      "奖励: " ++ toString (p.bonus.getD 0) ++ "鲸币",
      "发布者: " ++ p.publisher,
      "预计工时: " ++ toString p.planed_hour ++ "小时",
      "无人认领的任务"]
    source_id := some (toString p.id)
    source_type := some "project_task"
    created_at := now }

/-- Total score of a task-claim candidate, as computed before the
`total_score >= 50` gate in `_recommend_projects`. -/
def taskClaimTotalScore (s : Settings) (now : Int) (p : InnoProject) : ℚ :=
  calculateTotalScore s
    (calculateUrgencyScore (daysTo now p.deadline) "PROJECT")
    (min (60 + (p.bonus.getD 0) / 10) 90)
    (calculateProjectFitScore p)
    (min (60 + p.planed_hour * 2) 90)

/-- Embedding of `RecommendationEngine._recommend_projects`: one candidate
per unclaimed project (`taker_id is None`), gated by `total_score >= 50`. -/
def recommendProjects (s : Settings) (now : Int) (ud : UserData) :
    List RecommendationItem :=
  ud.projects.filterMap (fun p =>
    if p.taker_id = none then
      if 50 ≤ taskClaimTotalScore s now p then some (mkTaskClaimItem s now p) else none
    else none)

/-- Decimal rendering of the recent-hours figure (Python `f-string` with
`:.1f`); rounding of the rational to one decimal place. -/
def formatHours1 (q : ℚ) : String :=
  let n : Int := ⌊q * 10 + 1 / 2⌋
  toString (n / 10) ++ "." ++ toString (n % 10)

/-- The goal-talk `RecommendationItem` built in `_recommend_system_actions`
(lines 277-300). -/
def mkGoalTalkItem (s : Settings) (now : Int) (g : Goal) : RecommendationItem :=
  let days_since_start := (now - g.start_time).fdiv 86400
  let urgency_score := min ((50 : ℚ) + (days_since_start : ℚ)) 90
  let importance_score : ℚ := 75
  let fit_score : ℚ := 100
  let growth_score : ℚ := 85
  let total_score := calculateTotalScore s urgency_score importance_score fit_score growth_score
  { id := "goal_talk_" ++ toString g.id
    type := .GOAL_TALK
    title := "预约目标面谈（距上次" ++ toString days_since_start ++ "天）"
    description := "当前目标: " ++ g.content.take 50 ++ "..."
    action_text := "立即预约"
    action_url := "/user/goaltalk/new"
    score := total_score
    urgency := urgency_score
    importance := importance_score
    personal_fit := fit_score
    growth_value := growth_score
    estimated_time := "60分钟"
    deadline := none
    urgency_level := some .medium
    reasons := [
      "距离上次目标制定已" ++ toString days_since_start ++ "天",
      "定期复盘有助于目标达成",
      "个性化指导"]
    source_id := some (toString g.id)
    source_type := some "goal_management"
    created_at := now }

/-- The report-time `RecommendationItem` built in `_recommend_system_actions`
(lines 334-357). -/
def mkReportTimeItem (s : Settings) (now : Int) (recent_hours : ℚ) :
    RecommendationItem :=
  let urgency_score : ℚ := 60
  let importance_score : ℚ := 70
  let fit_score : ℚ := 90
  let growth_score : ℚ := 50
  let total_score := calculateTotalScore s urgency_score importance_score fit_score growth_score
  { id := "report_time_reminder"
    type := .REPORT_TIME
    title := "补充学时申报记录"
    description := "最近30天仅申报" ++ formatHours1 recent_hours ++ "小时，建议补充学习记录"
    action_text := "去申报"
    action_url := "/user/reports/new"
    score := total_score
    urgency := urgency_score
    importance := importance_score
    personal_fit := fit_score
    growth_value := growth_score
    estimated_time := "10-15分钟"
    deadline := none
    urgency_level := some .medium
    reasons := [
      "最近30天仅申报" ++ formatHours1 recent_hours ++ "小时",
      "学时记录有助于学习规划",
      "完善学习档案"]
    source_id := some "time_report"
    source_type := some "system_reminder"
    created_at := now }

/-- Hours reported in the trailing 30-day window (`_recommend_system_actions`
lines 305-322). -/
def recentHours (now : Int) (reports : List Report) : ℚ :=
  let thirty_days_ago := now - 30 * 86400
  ((reports.filter (fun r => thirty_days_ago < r.report_time)).map
    (fun r => r.time_reported.getD 0)).sum

/-- Embedding of `RecommendationEngine._recommend_system_actions`: at most
one goal-talk candidate (goal present and older than 21 days) and at most
one report-time candidate (some reports exist and fewer than 10 hours were
reported in the last 30 days). -/
def recommendSystemActions (s : Settings) (now : Int) (ud : UserData) :
    List RecommendationItem :=
  let goal_recs :=
    match ud.goal with
    | some g =>
        if 21 < (now - g.start_time).fdiv 86400 then [mkGoalTalkItem s now g] else []
    | none => []
  let report_recs :=
    if ud.reports ≠ [] ∧ recentHours now ud.reports < 10 then
      [mkReportTimeItem s now (recentHours now ud.reports)]
    else []
  goal_recs ++ report_recs

/-- Stable descending insertion for `sorted(..., key=lambda x: x.score,
reverse=True)`: an element is placed before the first element of strictly
smaller score, so equal-score elements keep their original relative order. -/
def sortedInsert (r : RecommendationItem) :
    List RecommendationItem → List RecommendationItem
  | [] => [r]
  | x :: xs => if x.score ≤ r.score then r :: x :: xs else x :: sortedInsert r xs

/-- Stable sort by `score` descending (Python `sorted` with `reverse=True`). -/
def sortByScoreDesc : List RecommendationItem → List RecommendationItem
  | [] => []
  | x :: xs => sortedInsert x (sortByScoreDesc xs)

/-- First loop of `_select_top3_with_diversity` (lines 438-446): walk the
sorted list, taking the first candidate of each not-yet-used category until
3 are selected.  `sel` is the accumulated `selected`, `used` the accumulated
`used_types`. -/
def diversityPass : List RecommendationItem → List RecommendationItem →
    List String → List RecommendationItem
  | [], sel, _ => sel
  | r :: rs, sel, used =>
    if 3 ≤ sel.length then sel
    else if r.type.category ∈ used then diversityPass rs sel used
    else diversityPass rs (sel ++ [r]) (r.type.category :: used)

/-- Second loop of `_select_top3_with_diversity` (lines 449-453): fill the
remaining slots with the highest-scoring candidates not already selected. -/
def fillPass : List RecommendationItem → List RecommendationItem →
    List RecommendationItem
  | [], sel => sel
  | r :: rs, sel =>
    if 3 ≤ sel.length then sel
    else if r ∈ sel then fillPass rs sel
    else fillPass rs (sel ++ [r])

/-- Embedding of `RecommendationEngine._select_top3_with_diversity`. -/
def selectTop3WithDiversity (recommendations : List RecommendationItem) :
    List RecommendationItem :=
  if recommendations = [] then []
  else
    let sorted_recs := sortByScoreDesc recommendations
    let selected := diversityPass sorted_recs [] []
    let selected := fillPass sorted_recs selected
    selected.take 3

/-- Per-fetch results of `asyncio.gather(..., return_exceptions=True)` over
the five upstream calls issued by `_fetch_user_data`. -/
structure FetchResults where
  selections : Except String (List CourseSelection)
  all_courses : Except String (List Course)
  projects : Except String (List InnoProject)
  goal : Except String (Option Goal)
  reports : Except String (List Report)

/-- Embedding of `_fetch_user_data` (real-API branch, lines 70-86): each
fetch that failed is replaced by its empty or absent default. -/
def fetchUserData (user_id : Int) (token : String) (f : FetchResults) :
    UserData :=
  { selections := match f.selections with | .ok v => v | .error _ => []
    all_courses := match f.all_courses with | .ok v => v | .error _ => []
    projects := match f.projects with | .ok v => v | .error _ => []
    goal := match f.goal with | .ok v => v | .error _ => none
    reports := match f.reports with | .ok v => v | .error _ => []
    user_id := user_id
    token := token }

/-- The `try:` body of `generate_recommendations` (lines 31-47).  A hard
failure inside the orchestration itself — in Python any exception raised
from the body — is modelled by the oracle `hard`, which makes the body
throw. -/
def generateBody (s : Settings) (now : Int) (user_id : Int) (token : String)
    (f : FetchResults) (hard : Option String) :
    Except String (List RecommendationItem) := do
  let user_data := fetchUserData user_id token f
  if let some e := hard then throw e
  let course_recs := recommendCourses s now user_data
  let project_recs := recommendProjects s now user_data
  let system_recs := recommendSystemActions s now user_data
  let all_recommendations := course_recs ++ project_recs ++ system_recs
  pure (selectTop3WithDiversity all_recommendations)

/-- Embedding of `RecommendationEngine.generate_recommendations`: the body
above wrapped in `try/except`, the handler returning `[]`.  The result is
kept in `Except` so that "never raises" is the statement that the result is
always `Except.ok`. -/
def generateRecommendations (s : Settings) (now : Int) (user_id : Int)
    (token : String) (f : FetchResults) (hard : Option String) :
    Except String (List RecommendationItem) :=
  match generateBody s now user_id token f hard with
  | .ok l => .ok l
  | .error _ => .ok []

/-- Association-list update: Python dict assignment / redis single-key SET
(replace in place, else append). -/
def setAssoc {α : Type} : List (String × α) → String → α → List (String × α)
  | [], k, v => [(k, v)]
  | (k0, v0) :: rest, k, v =>
    if k0 = k then (k, v) :: rest else (k0, v0) :: setAssoc rest k v

/-- Association-list lookup. -/
def getAssoc {α : Type} : List (String × α) → String → Option α
  | [], _ => none
  | (k0, v0) :: rest, k => if k0 = k then some v0 else getAssoc rest k

/-- Association-list removal of one key. -/
def delAssoc {α : Type} (m : List (String × α)) (k : String) : List (String × α) :=
  m.filter (fun e => e.1 ≠ k)

/-- Glob matching as used by redis `KEYS` for the patterns this code builds
(literal characters and the `*` wildcard), written with explicit fuel so the
kernel can evaluate it; `pattern.length + s.length + 1` steps always
suffice because every step shortens the pattern or the string. -/
def globMatchFuel : Nat → List Char → List Char → Bool
  | 0, _, _ => false
  | _ + 1, [], [] => true
  | _ + 1, [], _ :: _ => false
  | n + 1, '*' :: ps, [] => globMatchFuel n ps []
  | n + 1, '*' :: ps, c :: cs =>
      globMatchFuel n ps (c :: cs) || globMatchFuel n ('*' :: ps) cs
  | _ + 1, _ :: _, [] => false
  | n + 1, p :: ps, c :: cs => p == c && globMatchFuel n ps cs

/-- Glob matching on strings. -/
def globMatch (pattern s : String) : Bool :=
  globMatchFuel (pattern.length + s.length + 1) pattern.toList s.toList

/-- Whether a redis entry with the given absolute expiry is still live. -/
def isLive (now : Int) : Option Int → Bool
  | none => true
  | some t => now < t

/-- The networked key-value backend: key ↦ (value, optional absolute expiry). -/
abbrev RedisStore : Type := List (String × String × Option Int)

/-- The connection held in `CacheService.redis`: either a real backend
connection or the `InMemoryCache` fallback (a plain dict, no TTLs). -/
inductive Conn where
  | redis (store : RedisStore)
  | mem (cache : List (String × String))

/-- State of one `CacheService` instance: the cached connection object
(`self.redis`, `None` before first use), plus counters for connection
attempts and for the degraded-mode warnings logged when the fallback is
constructed (`logger.error` in `_get_redis` together with the
`InMemoryCache.__init__` warning count as one signal). -/
structure CacheState where
  conn : Option Conn
  connect_attempts : Nat
  degraded_signals : Nat

/-- A freshly constructed `CacheService` (`self.redis = None`). -/
def initCacheState : CacheState :=
  { conn := none, connect_attempts := 0, degraded_signals := 0 }

/-- Embedding of `CacheService._get_redis`: reuse the cached connection if
present; otherwise attempt to connect (`connOk` says whether the backend is
reachable, `remote` is its current contents) and on failure fall back to a
fresh `InMemoryCache`, recording the degradation signal. -/
def getRedisConn (connOk : Bool) (remote : RedisStore) (st : CacheState) :
    Conn × CacheState :=
  match st.conn with
  | some c => (c, st)
  | none =>
    if connOk then
      let c := Conn.redis remote
      (c, { conn := some c, connect_attempts := st.connect_attempts + 1,
            degraded_signals := st.degraded_signals })
    else
      let c := Conn.mem []
      (c, { conn := some c, connect_attempts := st.connect_attempts + 1,
            degraded_signals := st.degraded_signals + 1 })

/-- Backend `get`: redis returns only live entries; `InMemoryCache.get` is a
dict lookup. -/
def connGetVal (now : Int) (c : Conn) (k : String) : Option String :=
  match c with
  | .redis store =>
    match getAssoc store k with
    | some (v, exp) => if isLive now exp then some v else none
    | none => none
  | .mem m => getAssoc m k

/-- Backend `set` (no TTL): redis SET clears any expiry; `InMemoryCache.set`
is a dict assignment. -/
def connSetVal (c : Conn) (k data : String) : Conn :=
  match c with
  | .redis store => .redis (setAssoc store k (data, none))
  | .mem m => .mem (setAssoc m k data)

/-- Backend `setex`: redis stores an absolute expiry `now + ttl`;
`InMemoryCache.setex` ignores the TTL (documented simplification). -/
def connSetexVal (now : Int) (c : Conn) (k : String) (ttl : Int) (data : String) :
    Conn :=
  match c with
  | .redis store => .redis (setAssoc store k (data, some (now + ttl)))
  | .mem m => .mem (setAssoc m k data)

/-- Backend `keys(pattern)`: redis returns the live keys matching the glob;
`InMemoryCache.keys` returns every key, ignoring the pattern (documented
simplification in the source). -/
def connKeys (now : Int) (c : Conn) (pattern : String) : List String :=
  match c with
  | .redis store =>
    (store.filter (fun e => isLive now e.2.2 && globMatch pattern e.1)).map
      (fun e => e.1)
  | .mem m => m.map (fun e => e.1)

/-- Backend `delete(*keys)`: redis deletes all the keys and reports how many
live ones existed; `InMemoryCache.delete` accepts a single key only, so a
call with several keys raises `TypeError` (modelled as `.error`). -/
def connDelete (now : Int) (c : Conn) (ks : List String) :
    Except String (Conn × Int) :=
  match c with
  | .redis store =>
    let count := (ks.filter (fun k =>
      match getAssoc store k with
      | some (_, exp) => isLive now exp
      | none => false)).length
    .ok (.redis (store.filter (fun e => e.1 ∉ ks)), (count : Int))
  | .mem m =>
    match ks with
    | [k] => .ok (.mem (delAssoc m k), if (getAssoc m k).isSome then 1 else 0)
    | _ => .error "TypeError: delete() takes 2 positional arguments"

/-- Embedding of `CacheService._make_key`. -/
def makeKey (s : Settings) (key : String) : String :=
  s.cache_namespace ++ ":" ++ key

/-- Embedding of `CacheService.get`: fetch the connection, read the raw
data, and decode it (`json.loads`, abstracted as `dec`); Python的
`if data:` treats the empty string as a miss. -/
def cacheGet (s : Settings) (dec : String → String) (connOk : Bool)
    (remote : RedisStore) (now : Int) (key : String) (st : CacheState) :
    Option String × CacheState :=
  let (c, st1) := getRedisConn connOk remote st
  match connGetVal now c (makeKey s key) with
  | some data => (if data = "" then none else some (dec data), st1)
  | none => (none, st1)

/-- Embedding of `CacheService.set`: encode the value (`json.dumps`,
abstracted as `enc`) and store it, with `setex` when the TTL argument is
truthy; always returns `True` when the backend call succeeds (and in this
model backend writes always succeed). -/
def cacheSet (s : Settings) (enc : String → String) (connOk : Bool)
    (remote : RedisStore) (now : Int) (key value : String) (ttl : Option Int)
    (st : CacheState) : Bool × CacheState :=
  let (c, st1) := getRedisConn connOk remote st
  let data := enc value
  let c2 := match ttl with
    | some t =>
      if t = 0 then connSetVal c (makeKey s key) data
      else connSetexVal now c (makeKey s key) t data
    | none => connSetVal c (makeKey s key) data
  (true, { st1 with conn := some c2 })

/-- Embedding of `CacheService.clear_pattern`: list the keys matching the
prefixed pattern and delete them; any exception in the body (such as the
degraded-mode `TypeError` from `delete(*keys)`) is caught and `0` returned
with nothing deleted. -/
def clearPattern (s : Settings) (connOk : Bool) (remote : RedisStore)
    (now : Int) (pattern : String) (st : CacheState) : Int × CacheState :=
  let (c, st1) := getRedisConn connOk remote st
  let cache_pattern := makeKey s pattern
  let keys := connKeys now c cache_pattern
  if keys ≠ [] then
    match connDelete now c keys with
    | .ok (c2, result) => (result, { st1 with conn := some c2 })
    | .error _ => (0, st1)
  else (0, st1)

/-- Embedding of `PrecomputeService._cleanup_expired_cache`
(`performance.py` lines 190-201): one sweep clears the recommendation key
pattern. -/
def cleanupExpiredCache (s : Settings) (connOk : Bool) (remote : RedisStore)
    (now : Int) (st : CacheState) : Int × CacheState :=
  clearPattern s connOk remote now "recommendations:*" st

/-- One client-visible cache operation, for stating once-per-connection
properties over arbitrary call sequences. -/
inductive CacheOp where
  | setOp (key value : String) (ttl : Option Int)
  | getOp (key : String)

/-- Run a sequence of cache operations against one `CacheService`,
threading its state. -/
def runCacheOps (s : Settings) (enc dec : String → String) (connOk : Bool)
    (remote : RedisStore) (now : Int) :
    List CacheOp → CacheState → CacheState
  | [], st => st
  | .setOp k v ttl :: ops, st =>
    runCacheOps s enc dec connOk remote now ops
      (cacheSet s enc connOk remote now k v ttl st).2
  | .getOp k :: ops, st =>
    runCacheOps s enc dec connOk remote now ops
      (cacheGet s dec connOk remote now k st).2

/-- A list of recommendations in non-increasing `score` order. -/
def ScoreDescending (l : List RecommendationItem) : Prop :=
  l.Pairwise (fun a b => b.score ≤ a.score)

instance scoreDescendingDecidable (l : List RecommendationItem) :
    Decidable (ScoreDescending l) := by
  unfold ScoreDescending
  infer_instance

lemma sortedInsert_perm (r : RecommendationItem) (l : List RecommendationItem) :
    (sortedInsert r l).Perm (r :: l) := by
  induction l with
  | nil => exact List.Perm.refl _
  | cons x xs ih =>
    unfold sortedInsert
    by_cases h : x.score ≤ r.score
    · rw [if_pos h]
    · rw [if_neg h]
      exact List.Perm.trans (List.Perm.cons x ih) (List.Perm.swap r x xs)

lemma mem_sortedInsert (b r : RecommendationItem) (l : List RecommendationItem) :
    b ∈ sortedInsert r l ↔ b = r ∨ b ∈ l := by
  rw [(sortedInsert_perm r l).mem_iff, List.mem_cons]

lemma sortedInsert_pairwise (r : RecommendationItem) (l : List RecommendationItem)
    (h : ScoreDescending l) : ScoreDescending (sortedInsert r l) := by
  induction l with
  | nil => simp [sortedInsert, ScoreDescending]
  | cons x xs ih =>
    rw [ScoreDescending, List.pairwise_cons] at h
    unfold sortedInsert
    by_cases hc : x.score ≤ r.score
    · rw [if_pos hc]
      rw [ScoreDescending, List.pairwise_cons]
      refine ⟨?_, ?_⟩
      · intro b hb
        rcases List.mem_cons.mp hb with hb | hb
        · exact hb ▸ hc
        · exact le_trans (h.1 b hb) hc
      · rw [List.pairwise_cons]
        exact h
    · rw [if_neg hc]
      rw [ScoreDescending, List.pairwise_cons]
      refine ⟨?_, ih h.2⟩
      intro b hb
      rcases (mem_sortedInsert b r xs).mp hb with hb | hb
      · exact hb ▸ le_of_not_le hc
      · exact h.1 b hb

lemma sortByScoreDesc_perm (l : List RecommendationItem) :
    (sortByScoreDesc l).Perm l := by
  induction l with
  | nil => exact List.Perm.refl _
  | cons x xs ih =>
    exact List.Perm.trans (sortedInsert_perm x (sortByScoreDesc xs))
      (List.Perm.cons x ih)

lemma sortByScoreDesc_pairwise (l : List RecommendationItem) :
    ScoreDescending (sortByScoreDesc l) := by
  induction l with
  | nil => simp [sortByScoreDesc, ScoreDescending]
  | cons x xs ih => exact sortedInsert_pairwise x _ ih

lemma diversityPass_append (l : List RecommendationItem) :
    ∀ sel used, ∃ t, diversityPass l sel used = sel ++ t ∧ t.Sublist l := by
  induction l with
  | nil => exact fun sel used => ⟨[], by simp [diversityPass]⟩
  | cons r rs ih =>
    intro sel used
    unfold diversityPass
    by_cases h3 : 3 ≤ sel.length
    · exact ⟨[], by rw [if_pos h3]; simp⟩
    · rw [if_neg h3]
      by_cases hc : r.type.category ∈ used
      · rw [if_pos hc]
        obtain ⟨t, ht, hsub⟩ := ih sel used
        exact ⟨t, ht, hsub.cons r⟩
      · rw [if_neg hc]
        obtain ⟨t, ht, hsub⟩ := ih (sel ++ [r]) (r.type.category :: used)
        exact ⟨r :: t, by rw [ht, List.append_assoc]; rfl, hsub.cons₂ r⟩

lemma fillPass_append (l : List RecommendationItem) :
    ∀ sel, ∃ t, fillPass l sel = sel ++ t ∧ t.Sublist l := by
  induction l with
  | nil => exact fun sel => ⟨[], by simp [fillPass]⟩
  | cons r rs ih =>
    intro sel
    unfold fillPass
    by_cases h3 : 3 ≤ sel.length
    · exact ⟨[], by rw [if_pos h3]; simp⟩
    · rw [if_neg h3]
      by_cases hm : r ∈ sel
      · rw [if_pos hm]
        obtain ⟨t, ht, hsub⟩ := ih sel
        exact ⟨t, ht, hsub.cons r⟩
      · rw [if_neg hm]
        obtain ⟨t, ht, hsub⟩ := ih (sel ++ [r])
        exact ⟨r :: t, by rw [ht, List.append_assoc]; rfl, hsub.cons₂ r⟩

lemma diversityPass_length_le (l : List RecommendationItem) :
    ∀ sel used, sel.length ≤ 3 → (diversityPass l sel used).length ≤ 3 := by
  induction l with
  | nil => intro sel used h; simpa [diversityPass] using h
  | cons r rs ih =>
    intro sel used h
    unfold diversityPass
    by_cases h3 : 3 ≤ sel.length
    · rw [if_pos h3]; exact h
    · rw [if_neg h3]
      by_cases hc : r.type.category ∈ used
      · rw [if_pos hc]; exact ih sel used h
      · rw [if_neg hc]
        exact ih (sel ++ [r]) _ (by simp; omega)

lemma diversityPass_nodup (l : List RecommendationItem) :
    ∀ sel used, ((sel.map (fun r => r.type.category)).Nodup) →
      (∀ c ∈ sel.map (fun r => r.type.category), c ∈ used) →
      ((diversityPass l sel used).map (fun r => r.type.category)).Nodup := by
  induction l with
  | nil => intro sel used h1 _; simpa [diversityPass] using h1
  | cons r rs ih =>
    intro sel used h1 h2
    unfold diversityPass
    by_cases h3 : 3 ≤ sel.length
    · rw [if_pos h3]; exact h1
    · rw [if_neg h3]
      by_cases hc : r.type.category ∈ used
      · rw [if_pos hc]; exact ih sel used h1 h2
      · rw [if_neg hc]
        refine ih (sel ++ [r]) (r.type.category :: used) ?_ ?_
        · rw [List.map_append, List.map_singleton]
          rw [List.nodup_append]
          refine ⟨h1, List.nodup_singleton _, ?_⟩
          intro c hcm hcs
          rw [List.mem_singleton] at hcs
          exact hc (hcs ▸ h2 c hcm)
        · intro c hcm
          rw [List.map_append, List.map_singleton, List.mem_append,
            List.mem_singleton] at hcm
          rcases hcm with hcm | hcm
          · exact List.mem_cons_of_mem _ (h2 c hcm)
          · exact hcm ▸ List.mem_cons_self _ _

/-- Number of distinct candidate categories in `l` not yet in `used`. -/
def newCatCard (l : List RecommendationItem) (used : List String) : ℕ :=
  ((l.map (fun r => r.type.category)).toFinset \ used.toFinset).card

lemma diversityPass_length_eq_three (l : List RecommendationItem) :
    ∀ sel used, sel.length ≤ 3 → 3 ≤ sel.length + newCatCard l used →
      (diversityPass l sel used).length = 3 := by
  induction l with
  | nil =>
    intro sel used h1 h2
    simp only [newCatCard, List.map_nil, List.toFinset_nil, Finset.empty_sdiff,
      Finset.card_empty] at h2
    simpa [diversityPass] using le_antisymm h1 (by omega)
  | cons r rs ih =>
    intro sel used h1 h2
    unfold diversityPass
    by_cases h3 : 3 ≤ sel.length
    · rw [if_pos h3]; omega
    · rw [if_neg h3]
      by_cases hc : r.type.category ∈ used
      · rw [if_pos hc]
        refine ih sel used h1 ?_
        have : newCatCard (r :: rs) used = newCatCard rs used := by
          unfold newCatCard
          rw [List.map_cons, List.toFinset_cons,
            Finset.insert_sdiff_of_mem _ (List.mem_toFinset.mpr hc)]
        omega
      · rw [if_neg hc]
        refine ih (sel ++ [r]) (r.type.category :: used) (by simp; omega) ?_
        have hsub : (((r :: rs).map (fun r => r.type.category)).toFinset \ used.toFinset) ⊆
            insert r.type.category
              ((rs.map (fun r => r.type.category)).toFinset \
                (r.type.category :: used).toFinset) := by
          intro c hcm
          rw [List.map_cons, List.toFinset_cons, Finset.mem_sdiff,
            Finset.mem_insert] at hcm
          rw [Finset.mem_insert]
          by_cases hce : c = r.type.category
          · exact Or.inl hce
          · refine Or.inr ?_
            rw [Finset.mem_sdiff, List.toFinset_cons, Finset.mem_insert]
            exact ⟨hcm.1.resolve_left hce, fun h => (h.elim hce (fun hu => hcm.2 hu))⟩
        have hcard := Finset.card_le_card hsub
        have hins := Finset.card_insert_le r.type.category
          ((rs.map (fun r => r.type.category)).toFinset \
            (r.type.category :: used).toFinset)
        unfold newCatCard at h2 ⊢
        simp only [List.length_append, List.length_singleton]
        omega

lemma fillPass_of_length_ge (l sel : List RecommendationItem)
    (h : 3 ≤ sel.length) : fillPass l sel = sel := by
  cases l with
  | nil => rfl
  | cons r rs => unfold fillPass; rw [if_pos h]

lemma list_toFinset_subset_of_subset {l1 l2 : List String} (h : l1 ⊆ l2) :
    l1.toFinset ⊆ l2.toFinset := by
  intro x hx
  rw [List.mem_toFinset] at hx ⊢
  exact h hx

/-- A minimal concrete `RecommendationItem`, used to build explicit
candidate pools for concrete evaluations. -/
def sampleItem (id : String) (t : RecommendationType) (score : ℚ) :
    RecommendationItem :=
  { id := id, type := t, title := "", description := "", action_text := "",
    action_url := "", score := score, urgency := 0, importance := 0,
    personal_fit := 0, growth_value := 0, estimated_time := "",
    deadline := none, urgency_level := none, reasons := [], source_id := none,
    source_type := none, created_at := 0 }

/-- C1: for every non-empty candidate pool, `_select_top3_with_diversity`
returns at most 3 items, and if at least 3 distinct top-level categories
(part of the type tag before the first underscore) exist among the
candidates with positive score, the returned items span exactly 3 distinct
categories. -/
theorem select_top3_bounded_and_diverse (pool : List RecommendationItem)
    (hne : pool ≠ []) :
    (selectTop3WithDiversity pool).length ≤ 3 ∧
    (3 ≤ ((pool.filter (fun r => 0 < r.score)).map
        (fun r => r.type.category)).toFinset.card →
      ((selectTop3WithDiversity pool).map
        (fun r => r.type.category)).toFinset.card = 3) := by
  unfold selectTop3WithDiversity
  rw [if_neg hne]
  refine ⟨List.length_take_le 3 _, ?_⟩
  intro hcard
  have hposcats : 3 ≤ newCatCard (sortByScoreDesc pool) [] := by
    unfold newCatCard
    rw [List.toFinset_nil, Finset.sdiff_empty]
    have hperm : ((sortByScoreDesc pool).map (fun r => r.type.category)).toFinset =
        (pool.map (fun r => r.type.category)).toFinset :=
      List.toFinset_eq_of_perm _ _ ((sortByScoreDesc_perm pool).map _)
    rw [hperm]
    have hsub : ((pool.filter (fun r => 0 < r.score)).map
        (fun r => r.type.category)).toFinset ⊆
        (pool.map (fun r => r.type.category)).toFinset :=
      list_toFinset_subset_of_subset
        (((List.filter_sublist pool).map _).subset)
    exact le_trans hcard (Finset.card_le_card hsub)
  have hlen3 : (diversityPass (sortByScoreDesc pool) [] []).length = 3 :=
    diversityPass_length_eq_three _ [] [] (by simp) (by simpa using hposcats)
  have hnodup : ((diversityPass (sortByScoreDesc pool) [] []).map
      (fun r => r.type.category)).Nodup :=
    diversityPass_nodup _ [] [] (by simp) (by simp)
  show ((List.take 3 (fillPass (sortByScoreDesc pool)
      (diversityPass (sortByScoreDesc pool) [] []))).map
    (fun r => r.type.category)).toFinset.card = 3
  rw [fillPass_of_length_ge _ _ (le_of_eq hlen3.symm),
    List.take_of_length_le (le_of_eq hlen3)]
  rw [List.toFinset_card_of_nodup hnodup, List.length_map, hlen3]

/-- Closed instance of `select_top3_bounded_and_diverse`: a pool of three
positive-score candidates from three distinct categories. -/
theorem select_top3_bounded_and_diverse_witness :
    (selectTop3WithDiversity [sampleItem "a" .COURSE_URGENT 90,
        sampleItem "b" .TASK_CLAIM 80, sampleItem "c" .GOAL_TALK 70]).length ≤ 3 ∧
    ((selectTop3WithDiversity [sampleItem "a" .COURSE_URGENT 90,
        sampleItem "b" .TASK_CLAIM 80, sampleItem "c" .GOAL_TALK 70]).map
      (fun r => r.type.category)).toFinset.card = 3 :=
  ⟨(select_top3_bounded_and_diverse _ (by simp)).1,
   (select_top3_bounded_and_diverse _ (by simp)).2 (by decide)⟩

/-- C9 counterexample: the selector output is not, in general, sorted by
`totalScore` descending.  With candidates A(100), A(90), B(10) (categories
COURSE, COURSE, TASK) the diversity pass picks scores 100 and 10 and the
fill pass appends 90, giving the order 100, 10, 90. -/
theorem select_top3_not_sorted_cex :
    selectTop3WithDiversity [sampleItem "a" .COURSE_URGENT 100,
        sampleItem "b" .COURSE_POPULAR 90, sampleItem "c" .TASK_CLAIM 10] =
      [sampleItem "a" .COURSE_URGENT 100, sampleItem "c" .TASK_CLAIM 10,
        sampleItem "b" .COURSE_POPULAR 90] ∧
    ¬ ScoreDescending (selectTop3WithDiversity
        [sampleItem "a" .COURSE_URGENT 100, sampleItem "b" .COURSE_POPULAR 90,
          sampleItem "c" .TASK_CLAIM 10]) := by
  constructor
  · decide
  · decide

/-- C9 amended: the selector output always has length at most 3 and is the
concatenation of two runs — the diversity-pass picks and the fill-pass
picks — each of which is sorted by `totalScore` descending; the output as a
whole need not be globally descending. -/
theorem select_top3_phasewise_sorted (pool : List RecommendationItem) :
    (selectTop3WithDiversity pool).length ≤ 3 ∧
    ∃ l1 l2, selectTop3WithDiversity pool = l1 ++ l2 ∧
      ScoreDescending l1 ∧ ScoreDescending l2 := by
  unfold selectTop3WithDiversity
  by_cases hne : pool = []
  · rw [if_pos hne]
    exact ⟨by simp, [], [], by simp, List.Pairwise.nil, List.Pairwise.nil⟩
  · rw [if_neg hne]
    refine ⟨List.length_take_le 3 _, ?_⟩
    have hsorted := sortByScoreDesc_pairwise pool
    obtain ⟨t1, ht1, hsub1⟩ := diversityPass_append (sortByScoreDesc pool) [] []
    rw [List.nil_append] at ht1
    obtain ⟨t2, ht2, hsub2⟩ := fillPass_append (sortByScoreDesc pool)
      (diversityPass (sortByScoreDesc pool) [] [])
    have hp1len : (diversityPass (sortByScoreDesc pool) [] []).length ≤ 3 :=
      diversityPass_length_le _ [] [] (by simp)
    refine ⟨diversityPass (sortByScoreDesc pool) [] [],
      t2.take (3 - (diversityPass (sortByScoreDesc pool) [] []).length), ?_, ?_, ?_⟩
    · show List.take 3 (fillPass (sortByScoreDesc pool)
        (diversityPass (sortByScoreDesc pool) [] [])) = _
      rw [ht2, List.take_append_eq_append_take, List.take_of_length_le hp1len]
    · rw [ht1]
      exact List.Pairwise.sublist hsub1 hsorted
    · exact List.Pairwise.sublist ((List.take_sublist _ _).trans hsub2) hsorted

/-- C3 counterexample: with the stated sub-scores and the default weights
0.35/0.30/0.25/0.10 the weighted total is exactly 84.75 = 339/4, not
(approximately) 84.25 = 337/4; the difference is a full 0.5. -/
theorem scenario_total_score_cex :
    calculateTotalScore defaultSettings 85 85 90 70 = 339 / 4 ∧
    calculateTotalScore defaultSettings 85 85 90 70 ≠ 337 / 4 ∧
    ¬ |calculateTotalScore defaultSettings 85 85 90 70 - 337 / 4| < 1 / 2 := by
  refine ⟨by norm_num [calculateTotalScore, defaultSettings],
    by norm_num [calculateTotalScore, defaultSettings], ?_⟩
  have h : calculateTotalScore defaultSettings 85 85 90 70 - 337 / 4 = 1 / 2 := by
    norm_num [calculateTotalScore, defaultSettings]
  rw [h, abs_of_nonneg (by norm_num : (0 : ℚ) ≤ 1 / 2)]
  norm_num

/-- C3 amended: a course selection due in exactly 2 days produces the
scenario sub-scores urgency=85, importance=85, fit=90, growth=70, a total
score of 84.75 (not 84.25), and urgency level `high` under the default
thresholds (critical ≤ 24h, high ≤ 72h). -/
theorem scenario_course_due_in_two_days (now : Int) (sel : CourseSelection)
    (h : sel.deadline = now + 2 * 86400) :
    (mkCourseUrgentItem defaultSettings now sel).urgency = 85 ∧
    (mkCourseUrgentItem defaultSettings now sel).importance = 85 ∧
    (mkCourseUrgentItem defaultSettings now sel).personal_fit = 90 ∧
    (mkCourseUrgentItem defaultSettings now sel).growth_value = 70 ∧
    (mkCourseUrgentItem defaultSettings now sel).score = 339 / 4 ∧
    (mkCourseUrgentItem defaultSettings now sel).urgency_level =
      some UrgencyLevel.high := by
  have hd : daysTo now sel.deadline = 2 := by
    unfold daysTo
    rw [h]
    have he : now + 2 * 86400 - now = 172800 := by ring
    rw [he]
    decide
  unfold mkCourseUrgentItem
  rw [hd]
  refine ⟨?_, rfl, rfl, rfl, ?_, ?_⟩
  · norm_num [calculateUrgencyScore]
  · norm_num [calculateUrgencyScore, calculateTotalScore, defaultSettings]
  · norm_num [getUrgencyLevel, defaultSettings]

/-- Closed instance of `scenario_course_due_in_two_days` at a concrete
selection due two days after time 0. -/
theorem scenario_course_due_in_two_days_witness :
    (mkCourseUrgentItem defaultSettings 0
      { sele_id := 1, user_id := 1, user_name := "u", course_title := "Python",
        course_id := 101, chapter_title := "c5", chapter_id := 105,
        current_serial := 5, deadline := 172800, url := "/course/python",
        shushi_id := none, shushi_name := none }).score = 339 / 4 ∧
    (mkCourseUrgentItem defaultSettings 0
      { sele_id := 1, user_id := 1, user_name := "u", course_title := "Python",
        course_id := 101, chapter_title := "c5", chapter_id := 105,
        current_serial := 5, deadline := 172800, url := "/course/python",
        shushi_id := none, shushi_name := none }).urgency_level =
      some UrgencyLevel.high :=
  ⟨(scenario_course_due_in_two_days 0 _ (by norm_num)).2.2.2.2.1,
   (scenario_course_due_in_two_days 0 _ (by norm_num)).2.2.2.2.2⟩

/-- C4 counterexample: the claim quantifies over every weight configuration
summing to 1.0, but with the (sum-1) weights (2, -1, 0, 0) and in-range
sub-scores (0, 100, 0, 0) the computed total is -100, outside [0, 100]. -/
theorem total_score_range_cex :
    ((2 : ℚ) + (-1) + 0 + 0 = 1) ∧
    ((0 : ℚ) ≤ 0 ∧ (0 : ℚ) ≤ 100) ∧ ((0 : ℚ) ≤ 100 ∧ (100 : ℚ) ≤ 100) ∧
    calculateTotalScore
      { algorithm_weights_urgency := 2, algorithm_weights_importance := -1,
        algorithm_weights_personal_fit := 0, algorithm_weights_growth_value := 0 }
      0 100 0 0 < 0 := by
  norm_num [calculateTotalScore]

/-- C4 amended: for every weight configuration of four nonnegative weights
summing to 1.0 and sub-scores each in [0, 100], the clamped weighted total
lies in [0, 100]. -/
theorem total_score_in_range (s : Settings) (u i f g : ℚ)
    (hwu : 0 ≤ s.algorithm_weights_urgency)
    (hwi : 0 ≤ s.algorithm_weights_importance)
    (hwf : 0 ≤ s.algorithm_weights_personal_fit)
    (hwg : 0 ≤ s.algorithm_weights_growth_value)
    (hsum : s.algorithm_weights_urgency + s.algorithm_weights_importance +
      s.algorithm_weights_personal_fit + s.algorithm_weights_growth_value = 1)
    (hu0 : 0 ≤ u) (hu1 : u ≤ 100) (hi0 : 0 ≤ i) (hi1 : i ≤ 100)
    (hf0 : 0 ≤ f) (hf1 : f ≤ 100) (hg0 : 0 ≤ g) (hg1 : g ≤ 100) :
    0 ≤ calculateTotalScore s u i f g ∧ calculateTotalScore s u i f g ≤ 100 := by
  unfold calculateTotalScore
  constructor
  · refine le_min ?_ (by norm_num)
    have h1 := mul_nonneg hu0 hwu
    have h2 := mul_nonneg hi0 hwi
    have h3 := mul_nonneg hf0 hwf
    have h4 := mul_nonneg hg0 hwg
    linarith
  · exact min_le_right _ _

/-- Closed instance of `total_score_in_range` at the default weights and the
scenario sub-scores. -/
theorem total_score_in_range_witness :
    0 ≤ calculateTotalScore defaultSettings 85 85 90 70 ∧
    calculateTotalScore defaultSettings 85 85 90 70 ≤ 100 :=
  total_score_in_range defaultSettings 85 85 90 70
    (by norm_num [defaultSettings]) (by norm_num [defaultSettings])
    (by norm_num [defaultSettings]) (by norm_num [defaultSettings])
    (by norm_num [defaultSettings]) (by norm_num) (by norm_num) (by norm_num)
    (by norm_num) (by norm_num) (by norm_num) (by norm_num) (by norm_num)

/-- C5: the urgency sub-score is the stated piecewise function of whole
days remaining, with distinct curves for `COURSE` and `PROJECT` and a fixed
baseline of 25 for every other task type. -/
theorem urgency_score_piecewise (d : Int) (t : String) :
    (t = "COURSE" →
      (d ≤ 1 → calculateUrgencyScore d t = 95) ∧
      (1 < d → d ≤ 3 → calculateUrgencyScore d t = 85) ∧
      (3 < d → d ≤ 7 → calculateUrgencyScore d t = 70) ∧
      (7 < d → d ≤ 14 → calculateUrgencyScore d t = 50) ∧
      (14 < d → calculateUrgencyScore d t = 30)) ∧
    (t = "PROJECT" →
      (d ≤ 3 → calculateUrgencyScore d t = 90) ∧
      (3 < d → d ≤ 7 → calculateUrgencyScore d t = 75) ∧
      (7 < d → d ≤ 14 → calculateUrgencyScore d t = 60) ∧
      (14 < d → calculateUrgencyScore d t = 40)) ∧
    (t ≠ "COURSE" → t ≠ "PROJECT" → calculateUrgencyScore d t = 25) := by
  refine ⟨?_, ?_, ?_⟩
  · rintro rfl
    unfold calculateUrgencyScore
    refine ⟨?_, ?_, ?_, ?_, ?_⟩ <;> intros <;> split_ifs <;>
      first | rfl | omega | simp_all
  · rintro rfl
    unfold calculateUrgencyScore
    refine ⟨?_, ?_, ?_, ?_⟩ <;> intros <;> split_ifs <;>
      first | rfl | omega | simp_all
  · intro h1 h2
    unfold calculateUrgencyScore
    rw [if_neg h1, if_neg h2]

/-- C2: `generate_recommendations` never surfaces an exception: for every
combination of failing upstream fetches and even on a hard failure inside
the orchestration body, the result is `Except.ok` — an empty list when the
body itself failed — and every failed fetch is replaced in the assembled
`UserData` by its empty or absent default. -/
theorem generate_never_raises (s : Settings) (now user_id : Int)
    (token : String) (f : FetchResults) (hard : Option String) :
    (∃ l, generateRecommendations s now user_id token f hard = Except.ok l) ∧
    (∀ e, hard = some e →
      generateRecommendations s now user_id token f hard = Except.ok []) ∧
    (∀ e, f.selections = Except.error e →
      (fetchUserData user_id token f).selections = []) ∧
    (∀ e, f.all_courses = Except.error e →
      (fetchUserData user_id token f).all_courses = []) ∧
    (∀ e, f.projects = Except.error e →
      (fetchUserData user_id token f).projects = []) ∧
    (∀ e, f.goal = Except.error e →
      (fetchUserData user_id token f).goal = none) ∧
    (∀ e, f.reports = Except.error e →
      (fetchUserData user_id token f).reports = []) := by
  refine ⟨?_, ?_, ?_, ?_, ?_, ?_, ?_⟩
  · unfold generateRecommendations
    cases hb : generateBody s now user_id token f hard with
    | error e => exact ⟨[], rfl⟩
    | ok l => exact ⟨l, rfl⟩
  · intro e he
    subst he
    rfl
  · intro e he
    simp [fetchUserData, he]
  · intro e he
    simp [fetchUserData, he]
  · intro e he
    simp [fetchUserData, he]
  · intro e he
    simp [fetchUserData, he]
  · intro e he
    simp [fetchUserData, he]

/-- Closed instance of `generate_never_raises`: all five fetches fail and
the body also hard-fails; the caller still receives `ok []`, and the
assembled context used the empty defaults. -/
theorem generate_never_raises_witness :
    generateRecommendations defaultSettings 0 1 ""
      ⟨Except.error "a", Except.error "b", Except.error "c", Except.error "d",
        Except.error "e"⟩ (some "boom") = Except.ok [] ∧
    (fetchUserData 1 ""
      ⟨Except.error "a", Except.error "b", Except.error "c", Except.error "d",
        Except.error "e"⟩).selections = [] ∧
    (fetchUserData 1 ""
      ⟨Except.error "a", Except.error "b", Except.error "c", Except.error "d",
        Except.error "e"⟩).goal = none :=
  ⟨(generate_never_raises defaultSettings 0 1 "" _ _).2.1 "boom" rfl,
   (generate_never_raises defaultSettings 0 1 "" _ (some "boom")).2.2.1 "a" rfl,
   (generate_never_raises defaultSettings 0 1 "" _ (some "boom")).2.2.2.2.2.1 "d" rfl⟩

/-- C6: the course generator emits a course-urgent candidate for every
selection with `days_to_deadline <= 3`, with no score gate; and every
course-popular candidate it emits has total score at least 60. -/
theorem course_urgent_ungated_popular_gated (s : Settings) (now : Int)
    (ud : UserData) :
    (∀ sel ∈ ud.selections, daysTo now sel.deadline ≤ 3 →
      mkCourseUrgentItem s now sel ∈ recommendCourses s now ud) ∧
    (∀ r ∈ recommendCourses s now ud,
      r.type = RecommendationType.COURSE_POPULAR → 60 ≤ r.score) := by
  constructor
  · intro sel hmem hdays
    refine List.mem_append.mpr (Or.inl ?_)
    exact List.mem_filterMap.mpr ⟨sel, hmem, by rw [if_pos hdays]⟩
  · intro r hr htype
    rcases List.mem_append.mp hr with h | h
    · obtain ⟨sel, _, heq⟩ := List.mem_filterMap.mp h
      by_cases hc : daysTo now sel.deadline ≤ 3
      · rw [if_pos hc] at heq
        cases heq
        exact absurd htype (by simp [mkCourseUrgentItem])
      · rw [if_neg hc] at heq
        cases heq
    · obtain ⟨c, _, heq⟩ := List.mem_filterMap.mp h
      by_cases h1 : c.id ∉ ud.selections.map (fun sel => sel.course_id) ∧
          5 ≤ c.finish_selections_num.getD 0
      · rw [if_pos h1] at heq
        by_cases h2 : 60 ≤ coursePopularTotalScore s c
        · rw [if_pos h2] at heq
          cases heq
          have hs : (mkCoursePopularItem s now c).score =
              coursePopularTotalScore s c := rfl
          rw [hs]
          exact h2
        · rw [if_neg h2] at heq
          cases heq
      · rw [if_neg h1] at heq
        cases heq

/-- A concrete selection due exactly one day after time 0. -/
def sampleSelection : CourseSelection :=
  { sele_id := 1, user_id := 1, user_name := "u", course_title := "T",
    course_id := 101, chapter_title := "ch", chapter_id := 1,
    current_serial := 1, deadline := 86400, url := "/c", shushi_id := none,
    shushi_name := none }

/-- A context holding only `sampleSelection`. -/
def sampleUserData : UserData :=
  { selections := [sampleSelection], all_courses := [], projects := [],
    goal := none, reports := [], user_id := 1, token := "" }

/-- Closed instance of `course_urgent_ungated_popular_gated`: the candidate
for a selection due in one day is emitted. -/
theorem course_urgent_ungated_popular_gated_witness :
    mkCourseUrgentItem defaultSettings 0 sampleSelection ∈
      recommendCourses defaultSettings 0 sampleUserData :=
  (course_urgent_ungated_popular_gated defaultSettings 0 sampleUserData).1
    sampleSelection (by simp [sampleUserData]) (by decide)

/-- C10: the hours value fed to `_get_urgency_level` is the truncated whole
number of days times 24, so a course deadline strictly between 24 and 48
hours away yields `days = 1`, hours `= 24`, hence level `critical` (not
`high`) under a 24-hour critical threshold; the candidate is emitted since
`1 <= 3`. -/
theorem truncated_days_give_critical_level (s : Settings) (now : Int)
    (ud : UserData) (sel : CourseSelection)
    (hcrit : s.urgency_critical = 24)
    (h1 : now + 86400 < sel.deadline) (h2 : sel.deadline < now + 172800)
    (hmem : sel ∈ ud.selections) :
    daysTo now sel.deadline = 1 ∧
    (mkCourseUrgentItem s now sel).urgency_level =
      some UrgencyLevel.critical ∧
    mkCourseUrgentItem s now sel ∈ recommendCourses s now ud := by
  have hd : daysTo now sel.deadline = 1 := by
    unfold daysTo
    rw [Int.fdiv_eq_ediv _ (by norm_num)]
    omega
  refine ⟨hd, ?_, ?_⟩
  · show some (getUrgencyLevel s (daysTo now sel.deadline * 24)) =
      some UrgencyLevel.critical
    rw [hd]
    unfold getUrgencyLevel
    rw [hcrit]
    norm_num
  · refine List.mem_append.mpr (Or.inl (List.mem_filterMap.mpr
      ⟨sel, hmem, ?_⟩))
    rw [if_pos (by rw [hd]; norm_num : daysTo now sel.deadline ≤ 3)]

/-- A concrete selection due 100000 seconds (about 27.8 hours) after 0. -/
def lateSelection : CourseSelection :=
  { sele_id := 2, user_id := 1, user_name := "u", course_title := "T2",
    course_id := 102, chapter_title := "ch", chapter_id := 2,
    current_serial := 1, deadline := 100000, url := "/c2", shushi_id := none,
    shushi_name := none }

/-- A context holding only `lateSelection`. -/
def lateUserData : UserData :=
  { selections := [lateSelection], all_courses := [], projects := [],
    goal := none, reports := [], user_id := 1, token := "" }

/-- Closed instance of `truncated_days_give_critical_level`: a deadline
about 27.8 hours away is classified `critical`, not `high`. -/
theorem truncated_days_give_critical_level_witness :
    (mkCourseUrgentItem defaultSettings 0 lateSelection).urgency_level =
      some UrgencyLevel.critical ∧
    mkCourseUrgentItem defaultSettings 0 lateSelection ∈
      recommendCourses defaultSettings 0 lateUserData :=
  ⟨(truncated_days_give_critical_level defaultSettings 0 lateUserData
      lateSelection rfl (by decide) (by decide) (by simp [lateUserData])).2.1,
   (truncated_days_give_critical_level defaultSettings 0 lateUserData
      lateSelection rfl (by decide) (by decide) (by simp [lateUserData])).2.2⟩

/-- Closed instances of `urgency_score_piecewise`: one branch per curve
plus the non-deadline baseline. -/
theorem urgency_score_piecewise_witness :
    calculateUrgencyScore 2 "COURSE" = 85 ∧
    calculateUrgencyScore 5 "PROJECT" = 75 ∧
    calculateUrgencyScore 5 "GOAL" = 25 :=
  ⟨((urgency_score_piecewise 2 "COURSE").1 rfl).2.1 (by norm_num) (by norm_num),
   ((urgency_score_piecewise 5 "PROJECT").2.1 rfl).2.1 (by norm_num) (by norm_num),
   (urgency_score_piecewise 5 "GOAL").2.2 (by decide) (by decide)⟩

lemma getRedisConn_of_some (connOk : Bool) (remote : RedisStore)
    (st : CacheState) (c : Conn) (h : st.conn = some c) :
    getRedisConn connOk remote st = (c, st) := by
  unfold getRedisConn
  rw [h]

lemma cacheSet_preserves (s : Settings) (enc : String → String)
    (connOk : Bool) (remote : RedisStore) (now : Int) (k v : String)
    (ttl : Option Int) (st : CacheState) (c : Conn) (h : st.conn = some c) :
    ∃ c2, (cacheSet s enc connOk remote now k v ttl st).2 =
      { st with conn := some c2 } := by
  unfold cacheSet
  rw [getRedisConn_of_some connOk remote st c h]
  exact ⟨_, rfl⟩

lemma cacheGet_state (s : Settings) (dec : String → String) (connOk : Bool)
    (remote : RedisStore) (now : Int) (k : String) (st : CacheState)
    (c : Conn) (h : st.conn = some c) :
    (cacheGet s dec connOk remote now k st).2 = st := by
  unfold cacheGet
  rw [getRedisConn_of_some connOk remote st c h]
  show (match connGetVal now c (makeKey s k) with
    | some data => ((if data = "" then none else some (dec data) :
        Option String), st)
    | none => ((none : Option String), st)).2 = st
  cases connGetVal now c (makeKey s k) with
  | none => rfl
  | some data => rfl

lemma getAssoc_setAssoc_same {α : Type} (m : List (String × α)) (k : String)
    (v : α) : getAssoc (setAssoc m k v) k = some v := by
  induction m with
  | nil => simp [setAssoc, getAssoc]
  | cons e rest ih =>
    obtain ⟨k0, v0⟩ := e
    unfold setAssoc
    by_cases hk : k0 = k
    · rw [if_pos hk]
      simp [getAssoc]
    · rw [if_neg hk]
      unfold getAssoc
      rw [if_neg hk]
      exact ih

lemma cacheGet_mem (s : Settings) (dec : String → String) (connOk : Bool)
    (remote : RedisStore) (now : Int) (k : String) (st : CacheState)
    (m : List (String × String)) (h : st.conn = some (Conn.mem m)) :
    (cacheGet s dec connOk remote now k st).1 =
      match getAssoc m (makeKey s k) with
      | some data => if data = "" then none else some (dec data)
      | none => none := by
  unfold cacheGet
  rw [getRedisConn_of_some connOk remote st _ h]
  show (match getAssoc m (makeKey s k) with
    | some data => ((if data = "" then none else some (dec data) :
        Option String), st)
    | none => ((none : Option String), st)).1 = _
  cases getAssoc m (makeKey s k) with
  | none => rfl
  | some data => rfl

lemma runCacheOps_stable (s : Settings) (enc dec : String → String)
    (connOk : Bool) (remote : RedisStore) (now : Int) (ops : List CacheOp) :
    ∀ (st : CacheState) (c : Conn), st.conn = some c →
      (runCacheOps s enc dec connOk remote now ops st).degraded_signals =
        st.degraded_signals ∧
      (runCacheOps s enc dec connOk remote now ops st).connect_attempts =
        st.connect_attempts := by
  induction ops with
  | nil => intro st c _; exact ⟨rfl, rfl⟩
  | cons op rest ih =>
    intro st c h
    cases op with
    | setOp k v ttl =>
      obtain ⟨c2, hc2⟩ := cacheSet_preserves s enc connOk remote now k v ttl st c h
      show (runCacheOps s enc dec connOk remote now rest
          (cacheSet s enc connOk remote now k v ttl st).2).degraded_signals =
          st.degraded_signals ∧
        (runCacheOps s enc dec connOk remote now rest
          (cacheSet s enc connOk remote now k v ttl st).2).connect_attempts =
          st.connect_attempts
      rw [hc2]
      exact ih { st with conn := some c2 } c2 rfl
    | getOp k =>
      show (runCacheOps s enc dec connOk remote now rest
          (cacheGet s dec connOk remote now k st).2).degraded_signals =
          st.degraded_signals ∧
        (runCacheOps s enc dec connOk remote now rest
          (cacheGet s dec connOk remote now k st).2).connect_attempts =
          st.connect_attempts
      rw [cacheGet_state s dec connOk remote now k st c h]
      exact ih st c h

lemma cacheSet_from_none (s : Settings) (enc : String → String)
    (remote : RedisStore) (now : Int) (k v : String) (ttl : Option Int)
    (st : CacheState) (h : st.conn = none) :
    (cacheSet s enc false remote now k v ttl st).2 =
      { conn := some (Conn.mem (setAssoc [] (makeKey s k) (enc v))),
        connect_attempts := st.connect_attempts + 1,
        degraded_signals := st.degraded_signals + 1 } := by
  unfold cacheSet getRedisConn
  rw [h]
  rcases ttl with _ | t
  · rfl
  · show ({ conn := some (if t = 0 then connSetVal (Conn.mem []) (makeKey s k) (enc v) else connSetexVal now (Conn.mem []) (makeKey s k) t (enc v)),
            connect_attempts := st.connect_attempts + 1,
            degraded_signals := st.degraded_signals + 1 } : CacheState) =
      { conn := some (Conn.mem (setAssoc [] (makeKey s k) (enc v))),
        connect_attempts := st.connect_attempts + 1,
        degraded_signals := st.degraded_signals + 1 }
    split
    · rfl
    · rfl

lemma cacheGet_from_none (s : Settings) (dec : String → String)
    (remote : RedisStore) (now : Int) (k : String) (st : CacheState)
    (h : st.conn = none) :
    (cacheGet s dec false remote now k st).2 =
      { conn := some (Conn.mem []),
        connect_attempts := st.connect_attempts + 1,
        degraded_signals := st.degraded_signals + 1 } := by
  unfold cacheGet getRedisConn
  rw [h]
  rfl

/-- C7: with the backend unreachable, every `set`/`get` sequence on a fresh
`CacheService` triggers exactly one connection attempt and exactly one
degradation signal (not one per call), and `set` followed by `get` on the
in-process fallback succeeds, returning the value that was written (the
fallback ignores TTLs). -/
theorem cache_degraded_fallback (s : Settings) (enc dec : String → String)
    (remote : RedisStore) (now : Int) :
    (∀ ops : List CacheOp, ops ≠ [] →
      (runCacheOps s enc dec false remote now ops
        initCacheState).degraded_signals = 1 ∧
      (runCacheOps s enc dec false remote now ops
        initCacheState).connect_attempts = 1) ∧
    (∀ (st : CacheState) (k v : String) (ttl : Option Int), st.conn = none →
      (cacheSet s enc false remote now k v ttl st).1 = true ∧
      (dec (enc v) = v → enc v ≠ "" →
        (cacheGet s dec false remote now k
          (cacheSet s enc false remote now k v ttl st).2).1 = some v)) := by
  constructor
  · intro ops hne
    cases ops with
    | nil => exact absurd rfl hne
    | cons op rest =>
      cases op with
      | setOp k v ttl =>
        show (runCacheOps s enc dec false remote now rest
            (cacheSet s enc false remote now k v ttl initCacheState).2).degraded_signals = 1 ∧
          (runCacheOps s enc dec false remote now rest
            (cacheSet s enc false remote now k v ttl initCacheState).2).connect_attempts = 1
        rw [cacheSet_from_none s enc remote now k v ttl initCacheState rfl]
        exact runCacheOps_stable s enc dec false remote now rest _ _ rfl
      | getOp k =>
        show (runCacheOps s enc dec false remote now rest
            (cacheGet s dec false remote now k initCacheState).2).degraded_signals = 1 ∧
          (runCacheOps s enc dec false remote now rest
            (cacheGet s dec false remote now k initCacheState).2).connect_attempts = 1
        rw [cacheGet_from_none s dec remote now k initCacheState rfl]
        exact runCacheOps_stable s enc dec false remote now rest _ _ rfl
  · intro st k v ttl h
    constructor
    · rfl
    · intro hdec hne
      rw [cacheSet_from_none s enc remote now k v ttl st h,
        cacheGet_mem s dec false remote now k _
          (setAssoc [] (makeKey s k) (enc v)) rfl,
        getAssoc_setAssoc_same]
      show (if enc v = "" then none else some (dec (enc v)) :
        Option String) = some v
      rw [if_neg hne, hdec]

/-- Closed instance of `cache_degraded_fallback`: one `get` from a fresh
service with the backend down records one signal; a `set` with a TTL then a
`get` of the same key returns the written value. -/
theorem cache_degraded_fallback_witness :
    (runCacheOps defaultSettings (fun d => d) (fun d => d) false [] 0
      [CacheOp.getOp "recommendations:user:1"]
      initCacheState).degraded_signals = 1 ∧
    (cacheGet defaultSettings (fun d => d) false [] 0 "recommendations:user:1"
      (cacheSet defaultSettings (fun d => d) false [] 0
        "recommendations:user:1" "recset" (some 7200) initCacheState).2).1 =
      some "recset" :=
  ⟨((cache_degraded_fallback defaultSettings (fun d => d) (fun d => d) [] 0).1
      [CacheOp.getOp "recommendations:user:1"] (by simp)).1,
   ((cache_degraded_fallback defaultSettings (fun d => d) (fun d => d) [] 0).2
      initCacheState "recommendations:user:1" "recset" (some 7200) rfl).2
      rfl (by decide)⟩

/-- A cache already connected to the backend, holding one recommendation
entry that expires at time 1000 (so it is unexpired at time 0) and one
unrelated entry. -/
def sweepDemoState : CacheState :=
  { conn := some (Conn.redis
      [("what_to_do:recommendations:user:1", "recset", some 1000),
       ("what_to_do:stats:global", "statv", none)]),
    connect_attempts := 1, degraded_signals := 0 }

/-- C8: evaluation of the sweep at a failing input.  Before the sweep the
recommendation entry is live and unexpired (readable at time 0, expiry
1000); `_cleanup_expired_cache` nevertheless deletes it, while the
non-matching entry survives.  This contradicts the claim (and the
functions own comments, which say it clears *expired* entries and keeps
the recent ones). -/
theorem sweep_deletes_unexpired_recommendation_cex :
    (cacheGet defaultSettings (fun d => d) true [] 0 "recommendations:user:1"
      sweepDemoState).1 = some "recset" ∧
    (cleanupExpiredCache defaultSettings true [] 0 sweepDemoState).1 = 1 ∧
    (cacheGet defaultSettings (fun d => d) true [] 0 "recommendations:user:1"
      (cleanupExpiredCache defaultSettings true [] 0 sweepDemoState).2).1 =
      none ∧
    (cacheGet defaultSettings (fun d => d) true [] 0 "stats:global"
      (cleanupExpiredCache defaultSettings true [] 0 sweepDemoState).2).1 =
      some "statv" := by
  refine ⟨?_, ?_, ?_, ?_⟩ <;> decide
